import Mathlib

/-!
# Verification of `ilp-compat-plugin`

A shallow embedding, in Lean 4, of the interledger `ilp-compat-plugin`
compatibility adapter (TypeScript sources `src/index.ts`, `src/converters.ts`,
`src/util.ts`, `src/types.ts`), together with proofs about the embedded
definitions.

Modelling conventions:
* JS `Buffer` values are `List Nat` (byte lists; well-formedness `b < 256`
  appears as a hypothesis where byte recovery matters).
* JS strings that take part in character-level computation are `List Char`;
  plain identifiers and addresses are Lean `String`, with the JS string
  operations (`startsWith`, `substring`, `split`) modelled on `String.data`.
* External trusted collaborators (the `ilp-packet` codec, Node's base64
  decoder, `Date`, `uuid`) are modelled as explicit computable functions,
  marked `Modelled from the spec:` in their doc comments.
* Stateful adapter methods are explicit state transformers returning the new
  state plus the list of effectful calls made on the wrapped V1 plugin and an
  outcome describing how the surrounding promise settles.
-/

namespace IlpCompat

/-- Decidable equality for `Except`, so concrete runs of the fallible
embedded operations can be checked by evaluation. -/
instance {e a : Type} [DecidableEq e] [DecidableEq a] : DecidableEq (Except e a) := by
  intro x y
  cases x <;> cases y
  case error.error u v =>
    exact if h : u = v then .isTrue (by rw [h]) else .isFalse (by intro hc; cases hc; exact h rfl)
  case ok.ok u v =>
    exact if h : u = v then .isTrue (by rw [h]) else .isFalse (by intro hc; cases hc; exact h rfl)
  case error.ok u v => exact .isFalse (by intro hc; cases hc)
  case ok.error u v => exact .isFalse (by intro hc; cases hc)

/-! ## Base64 and the base64url helper (`src/util.ts`) -/

/-- The standard base64 alphabet, as a list of characters. -/
def b64Alphabet : List Char :=
  "ABCDEFGHIJKLMNOPQRSTUVWXYZabcdefghijklmnopqrstuvwxyz0123456789+/".data

/-- Character for a sextet value (0–63). -/
def b64Char (n : Nat) : Char := b64Alphabet.getD n 'A'

/-- Modelled from the spec: Node's `buffer.toString('base64')` builtin
(standard base64 with `=` padding), which the repository's `base64url`
helper post-processes. -/
def b64Encode : List Nat → List Char
  | a :: b :: c :: rest =>
      b64Char (a / 4) :: b64Char ((a % 4) * 16 + b / 16) ::
      b64Char ((b % 16) * 4 + c / 64) :: b64Char (c % 64) :: b64Encode rest
  | [a, b] => [b64Char (a / 4), b64Char ((a % 4) * 16 + b / 16), b64Char ((b % 16) * 4), '=']
  | [a] => [b64Char (a / 4), b64Char ((a % 4) * 16), '=', '=']
  | [] => []

/-- JS `String.prototype.replace(/=$/g, '')`: without the multiline flag the
anchor `$` matches only at the very end of the string, so at most the single
final character is removed (when it is `'='`). -/
def stripOneTrailingEq (s : List Char) : List Char :=
  if s.getLast? = some '=' then s.dropLast else s

/-- JS `replace(/\+/g, '-')` followed by `replace(/\//g, '_')`, per character. -/
def urlSafeChar (c : Char) : Char :=
  if c = '+' then '-' else if c = '/' then '_' else c

/-- The repository's `base64url` helper (`src/util.ts`): standard base64,
then `replace(/=$/g, '')`, then `+` → `-` and `/` → `_`. -/
def base64url (buf : List Nat) : List Char :=
  (stripOneTrailingEq (b64Encode buf)).map urlSafeChar

/-- Sextet value of a character in either the standard or the URL-safe
base64 alphabet; `none` for padding and foreign characters. -/
def b64DecVal (c : Char) : Option Nat :=
  let n := c.toNat
  if 65 ≤ n ∧ n ≤ 90 then some (n - 65)
  else if 97 ≤ n ∧ n ≤ 122 then some (n - 71)
  else if 48 ≤ n ∧ n ≤ 57 then some (n + 4)
  else if c = '+' ∨ c = '-' then some 62
  else if c = '/' ∨ c = '_' then some 63
  else none

/-- Modelled from the spec: the sextet-filtering front end of Node's
forgiving `Buffer.from(s, 'base64')` builtin, which accepts both base64
alphabets and skips padding. -/
def b64Filter (s : List Char) : List Nat := s.filterMap b64DecVal

/-- Modelled from the spec: the byte-assembly back end of Node's
`Buffer.from(s, 'base64')` builtin; a trailing group of three (two) sextets
yields two bytes (one byte). -/
def b64Groups : List Nat → List Nat
  | s1 :: s2 :: s3 :: s4 :: rest =>
      (s1 * 4 + s2 / 16) :: ((s2 % 16) * 16 + s3 / 4) :: ((s3 % 4) * 64 + s4) ::
      b64Groups rest
  | [s1, s2, s3] => [s1 * 4 + s2 / 16, (s2 % 16) * 16 + s3 / 4]
  | [s1, s2] => [s1 * 4 + s2 / 16]
  | _ => []

/-- Modelled from the spec: Node's `Buffer.from(s, 'base64')` builtin. -/
def bufferFromBase64 (s : List Char) : List Nat := b64Groups (b64Filter s)

/-- The unpadded sextet stream of a byte list (reference for the roundtrip). -/
def sextets : List Nat → List Nat
  | a :: b :: c :: rest =>
      (a / 4) :: ((a % 4) * 16 + b / 16) :: ((b % 16) * 4 + c / 64) :: (c % 64) ::
      sextets rest
  | [a, b] => [a / 4, (a % 4) * 16 + b / 16, (b % 16) * 4]
  | [a] => [a / 4, (a % 4) * 16]
  | [] => []

theorem b64DecVal_b64Char (n : Nat) (h : n < 64) : b64DecVal (b64Char n) = some n := by
  interval_cases n <;> decide

theorem b64DecVal_urlSafe_b64Char (n : Nat) (h : n < 64) :
    b64DecVal (urlSafeChar (b64Char n)) = some n := by
  interval_cases n <;> decide

theorem b64DecVal_eq_none : b64DecVal (urlSafeChar '=') = none := by decide

/-- Filtering the URL-safe image of the padded encoding yields exactly the
sextet stream: padding characters are dropped, alphabet characters decode. -/
theorem b64Filter_b64Encode (bs : List Nat) (h : ∀ b ∈ bs, b < 256) :
    b64Filter (List.map urlSafeChar (b64Encode bs)) = sextets bs := by
  induction bs using b64Encode.induct with
  | case1 a b c rest ih =>
    have ha : a < 256 := h a (by simp)
    have hb : b < 256 := h b (by simp)
    have hc : c < 256 := h c (by simp)
    have e1 := b64DecVal_urlSafe_b64Char (a / 4) (by omega)
    have e2 := b64DecVal_urlSafe_b64Char ((a % 4) * 16 + b / 16) (by omega)
    have e3 := b64DecVal_urlSafe_b64Char ((b % 16) * 4 + c / 64) (by omega)
    have e4 := b64DecVal_urlSafe_b64Char (c % 64) (by omega)
    have ihr : b64Filter (List.map urlSafeChar (b64Encode rest)) = sextets rest :=
      ih (fun x hx => h x (by simp [hx]))
    simp only [b64Filter, List.filterMap] at ihr ⊢
    simp [b64Encode, sextets, e1, e2, e3, e4, ihr]
  | case2 a b =>
    have ha : a < 256 := h a (by simp)
    have hb : b < 256 := h b (by simp)
    have e1 := b64DecVal_urlSafe_b64Char (a / 4) (by omega)
    have e2 := b64DecVal_urlSafe_b64Char ((a % 4) * 16 + b / 16) (by omega)
    have e3 := b64DecVal_urlSafe_b64Char ((b % 16) * 4) (by omega)
    simp [b64Filter, b64Encode, sextets, e1, e2, e3, b64DecVal_eq_none]
  | case3 a =>
    have ha : a < 256 := h a (by simp)
    have e1 := b64DecVal_urlSafe_b64Char (a / 4) (by omega)
    have e2 := b64DecVal_urlSafe_b64Char ((a % 4) * 16) (by omega)
    simp [b64Filter, b64Encode, sextets, e1, e2, b64DecVal_eq_none]
  | case4 => rfl

/-- Reassembling the sextet stream recovers the bytes. -/
theorem b64Groups_sextets (bs : List Nat) (h : ∀ b ∈ bs, b < 256) :
    b64Groups (sextets bs) = bs := by
  induction bs using sextets.induct with
  | case1 a b c rest ih =>
    have ha : a < 256 := h a (by simp)
    have hb : b < 256 := h b (by simp)
    have hc : c < 256 := h c (by simp)
    have h1 : a / 4 * 4 + (a % 4 * 16 + b / 16) / 16 = a := by omega
    have h2 : (a % 4 * 16 + b / 16) % 16 * 16 + (b % 16 * 4 + c / 64) / 4 = b := by
      have : (a % 4 * 16 + b / 16) % 16 = b / 16 := by omega
      rw [this]; omega
    have h3 : (b % 16 * 4 + c / 64) % 4 * 64 + c % 64 = c := by
      have : (b % 16 * 4 + c / 64) % 4 = c / 64 := by omega
      rw [this]; omega
    simp only [sextets, b64Groups, h1, h2, h3]
    rw [ih (fun x hx => h x (by simp [hx]))]
  | case2 a b =>
    have ha : a < 256 := h a (by simp)
    have hb : b < 256 := h b (by simp)
    have h1 : a / 4 * 4 + (a % 4 * 16 + b / 16) / 16 = a := by omega
    have h2 : (a % 4 * 16 + b / 16) % 16 * 16 + b % 16 * 4 / 4 = b := by
      have : (a % 4 * 16 + b / 16) % 16 = b / 16 := by omega
      rw [this]; omega
    simp only [sextets, b64Groups, h1, h2]
  | case3 a =>
    have ha : a < 256 := h a (by simp)
    have h1 : a / 4 * 4 + a % 4 * 16 / 16 = a := by omega
    simp only [sextets, b64Groups, h1]
  | case4 => rfl

/-- Stripping the final padding character does not change the decoded sextets. -/
theorem b64Filter_strip (l : List Char) :
    b64Filter (List.map urlSafeChar (stripOneTrailingEq l)) =
      b64Filter (List.map urlSafeChar l) := by
  unfold stripOneTrailingEq
  split
  · rename_i hlast
    conv_rhs => rw [show l = l.dropLast ++ ['='] by
      rcases l.eq_nil_or_concat with rfl | ⟨l', x, rfl⟩
      · simp at hlast
      · simp_all [List.getLast?_concat]]
    simp [b64Filter, List.filterMap_append, b64DecVal_eq_none]
  · rfl

/-- Node's base64 decoding is a left inverse of the repository's `base64url`. -/
theorem bufferFromBase64_base64url (bs : List Nat) (h : ∀ b ∈ bs, b < 256) :
    bufferFromBase64 (base64url bs) = bs := by
  unfold bufferFromBase64 base64url
  rw [b64Filter_strip, b64Filter_b64Encode bs h, b64Groups_sextets bs h]

/-! ## Length-prefixed byte strings (the `oer-utils` / `ilp-packet` wire layer)

Modelled from the spec: the binary packet codec is "a trusted external
library with a fixed wire format"; its `Writer.writeVarOctetString` emits a
length prefix followed by the raw bytes. The prefix here is a base-128
varint, which keeps every emitted byte below 256 for payloads of any size. -/

/-- Fueled worker for the variable-length length prefix. -/
def varlenGo : Nat → Nat → List Nat
  | 0, _ => []
  | fuel + 1, m => if m < 128 then [m] else (128 + m % 128) :: varlenGo fuel (m / 128)

/-- Modelled from the spec: length-prefix encoding of a natural number. -/
def varlen (n : Nat) : List Nat := varlenGo (n + 1) n

/-- Modelled from the spec: a length-prefixed octet string
(`Writer.writeVarOctetString`). -/
def varOctet (bs : List Nat) : List Nat := varlen bs.length ++ bs

/-- Parser for `varlen`; returns the value and the remaining bytes. -/
def readVarlen : List Nat → Option (Nat × List Nat)
  | [] => none
  | b :: rest =>
      if b < 128 then some (b, rest)
      else
        match readVarlen rest with
        | some (m, rest') => some (m * 128 + (b - 128), rest')
        | none => none

/-- Parser for `varOctet`; returns the octet string and the remaining bytes. -/
def readVarOctet (bs : List Nat) : Option (List Nat × List Nat) :=
  match readVarlen bs with
  | some (n, rest) => if rest.length < n then none else some (rest.take n, rest.drop n)
  | none => none

theorem varlenGo_bytes_lt (fuel m : Nat) : ∀ b ∈ varlenGo fuel m, b < 256 := by
  induction fuel generalizing m with
  | zero => simp [varlenGo]
  | succ k ih =>
    intro b hb
    simp only [varlenGo] at hb
    split at hb
    · simp at hb; omega
    · rcases List.mem_cons.mp hb with rfl | hb
      · omega
      · exact ih _ b hb

theorem varlen_bytes_lt (n : Nat) : ∀ b ∈ varlen n, b < 256 :=
  varlenGo_bytes_lt _ n

theorem readVarlen_varlenGo (fuel m : Nat) (h : m < fuel) (rest : List Nat) :
    readVarlen (varlenGo fuel m ++ rest) = some (m, rest) := by
  induction fuel generalizing m with
  | zero => omega
  | succ k ih =>
    simp only [varlenGo]
    split
    · simp [readVarlen, *]
    · rename_i hm
      have hdiv : m / 128 < k := by
        have h1 : 0 < m := by omega
        have := Nat.div_lt_self h1 (by omega : 1 < 128)
        omega
      simp only [List.cons_append, readVarlen]
      have hge : ¬ (128 + m % 128 < 128) := by omega
      simp only [hge, if_false, List.append_eq]
      rw [ih (m / 128) hdiv]
      have h2 : m / 128 * 128 + m % 128 = m := by
        rw [Nat.mul_comm]; exact Nat.div_add_mod m 128
      simp [h2]

theorem readVarlen_varlen (n : Nat) (rest : List Nat) :
    readVarlen (varlen n ++ rest) = some (n, rest) :=
  readVarlen_varlenGo (n + 1) n (by omega) rest

theorem readVarOctet_varOctet (bs rest : List Nat) :
    readVarOctet (varOctet bs ++ rest) = some (bs, rest) := by
  unfold readVarOctet varOctet
  rw [List.append_assoc, readVarlen_varlen]
  simp [List.take_left, List.drop_left]

theorem varOctet_bytes_lt (bs : List Nat) (h : ∀ b ∈ bs, b < 256) :
    ∀ b ∈ varOctet bs, b < 256 := by
  intro b hb
  rcases List.mem_append.mp hb with hb | hb
  · exact varlen_bytes_lt _ b hb
  · exact h b hb

/-! ## Strings as byte lists -/

/-- Modelled from the spec: `Buffer.from(s, 'ascii')` (and `'utf8'` for the
code points below 256 that appear in addresses and codes). -/
def strBytes (s : String) : List Nat := s.data.map Char.toNat

/-- Modelled from the spec: `buffer.toString('ascii')`, the inverse direction. -/
def bytesStr (bs : List Nat) : String := String.mk (bs.map Char.ofNat)

theorem bytesStr_strBytes (s : String) : bytesStr (strBytes s) = s := by
  unfold bytesStr strBytes
  rw [List.map_map]
  have : (Char.ofNat ∘ Char.toNat) = id := by
    funext c; simp [Function.comp, Char.ofNat_toNat]
  rw [this, List.map_id]

end IlpCompat

namespace IlpCompat

/-! ## JS `Date` modelled as UTC broken-down time

Modelled from the spec: `Date` is an external JS builtin. A date value is
represented by its UTC components (the fields `toISOString` prints); two JS
dates are equal exactly when these components agree. -/

/-- A JS `Date`, as its UTC components. -/
structure DateTime where
  year : Nat
  month : Nat
  day : Nat
  hour : Nat
  minute : Nat
  second : Nat
  millis : Nat
deriving DecidableEq, Repr

/-- Component bounds under which `toISOString` prints each field in full
(the bounds hold for every real calendar date). -/
def DateTime.WellFormed (d : DateTime) : Prop :=
  d.year < 10000 ∧ d.month < 100 ∧ d.day < 100 ∧ d.hour < 100 ∧
    d.minute < 100 ∧ d.second < 100 ∧ d.millis < 1000

instance (d : DateTime) : Decidable d.WellFormed := by
  unfold DateTime.WellFormed; infer_instance

/-- Decimal digit character for `n % 10`. -/
def dChar (n : Nat) : Char :=
  match n % 10 with
  | 0 => '0' | 1 => '1' | 2 => '2' | 3 => '3' | 4 => '4'
  | 5 => '5' | 6 => '6' | 7 => '7' | 8 => '8' | _ => '9'

/-- Numeric value of a digit character. -/
def digitVal (c : Char) : Nat := c.toNat - 48

/-- Whether a character is a decimal digit. -/
def isDigitCh (c : Char) : Bool := 48 ≤ c.toNat && c.toNat ≤ 57

/-- Two-digit zero-padded decimal. -/
def pad2 (n : Nat) : List Char := [dChar (n / 10), dChar n]

/-- Three-digit zero-padded decimal. -/
def pad3 (n : Nat) : List Char := [dChar (n / 100), dChar (n / 10), dChar n]

/-- Four-digit zero-padded decimal. -/
def pad4 (n : Nat) : List Char := [dChar (n / 1000), dChar (n / 100), dChar (n / 10), dChar n]

/-- Modelled from the spec: the JS builtin `Date.prototype.toISOString`,
printing `YYYY-MM-DDTHH:MM:SS.mmmZ` from the UTC components. -/
def toISOString (d : DateTime) : List Char :=
  pad4 d.year ++ '-' :: pad2 d.month ++ '-' :: pad2 d.day ++
    'T' :: pad2 d.hour ++ ':' :: pad2 d.minute ++ ':' :: pad2 d.second ++
    '.' :: pad3 d.millis ++ ['Z']

/-- Modelled from the spec: `new Date(s)` for an ISO-8601 UTC string; any
other shape yields an invalid date (`none`). -/
def parseISODate : List Char → Option DateTime
  | [y1, y2, y3, y4, '-', m1, m2, '-', d1, d2, 'T',
     h1, h2, ':', n1, n2, ':', s1, s2, '.', f1, f2, f3, 'Z'] =>
      if isDigitCh y1 && isDigitCh y2 && isDigitCh y3 && isDigitCh y4 &&
         isDigitCh m1 && isDigitCh m2 && isDigitCh d1 && isDigitCh d2 &&
         isDigitCh h1 && isDigitCh h2 && isDigitCh n1 && isDigitCh n2 &&
         isDigitCh s1 && isDigitCh s2 && isDigitCh f1 && isDigitCh f2 && isDigitCh f3 then
        some {
          year := digitVal y1 * 1000 + digitVal y2 * 100 + digitVal y3 * 10 + digitVal y4
          month := digitVal m1 * 10 + digitVal m2
          day := digitVal d1 * 10 + digitVal d2
          hour := digitVal h1 * 10 + digitVal h2
          minute := digitVal n1 * 10 + digitVal n2
          second := digitVal s1 * 10 + digitVal s2
          millis := digitVal f1 * 100 + digitVal f2 * 10 + digitVal f3 }
      else none
  | _ => none

theorem digitVal_dChar (n : Nat) : digitVal (dChar n) = n % 10 := by
  unfold dChar
  have h : n % 10 < 10 := Nat.mod_lt _ (by omega)
  interval_cases h : n % 10 <;> simp [digitVal]

theorem isDigitCh_dChar (n : Nat) : isDigitCh (dChar n) = true := by
  unfold dChar
  have h : n % 10 < 10 := Nat.mod_lt _ (by omega)
  interval_cases h : n % 10 <;> decide

/-- Parsing an ISO string printed from well-formed components recovers them. -/
theorem parseISODate_toISOString (d : DateTime) (h : d.WellFormed) :
    parseISODate (toISOString d) = some d := by
  obtain ⟨hy, hmo, hd, hh, hmi, hs, hms⟩ := h
  show parseISODate
      [dChar (d.year / 1000), dChar (d.year / 100), dChar (d.year / 10), dChar d.year, '-',
       dChar (d.month / 10), dChar d.month, '-', dChar (d.day / 10), dChar d.day, 'T',
       dChar (d.hour / 10), dChar d.hour, ':', dChar (d.minute / 10), dChar d.minute, ':',
       dChar (d.second / 10), dChar d.second, '.',
       dChar (d.millis / 100), dChar (d.millis / 10), dChar d.millis, 'Z'] = some d
  unfold parseISODate
  simp only [isDigitCh_dChar, Bool.and_self, if_true, digitVal_dChar, Option.some.injEq]
  have hy' : d.year / 1000 % 10 * 1000 + d.year / 100 % 10 * 100 +
      d.year / 10 % 10 * 10 + d.year % 10 = d.year := by omega
  have hmo' : d.month / 10 % 10 * 10 + d.month % 10 = d.month := by omega
  have hd' : d.day / 10 % 10 * 10 + d.day % 10 = d.day := by omega
  have hh' : d.hour / 10 % 10 * 10 + d.hour % 10 = d.hour := by omega
  have hmi' : d.minute / 10 % 10 * 10 + d.minute % 10 = d.minute := by omega
  have hs' : d.second / 10 % 10 * 10 + d.second % 10 = d.second := by omega
  have hms' : d.millis / 100 % 10 * 100 + d.millis / 10 % 10 * 10 + d.millis % 10 = d.millis := by
    omega
  cases d
  simp_all

/-! ## The `ilp-packet` codec

Modelled from the spec: the binary packet codec is "a trusted external
library with a fixed wire format" (a one-byte type discriminant followed by
a length-prefixed body of length-prefixed fields). -/

/-- Packet type discriminants (model constants for `IlpPacket.Type`). -/
def TYPE_ILP_PAYMENT : Nat := 1

/-- Type discriminant of the V1 fulfillment response packet. -/
def TYPE_ILP_FULFILLMENT : Nat := 2

/-- Type discriminant of the V1 forwarded-payment packet. -/
def TYPE_ILP_FORWARDED_PAYMENT : Nat := 10

/-- Type discriminant of the prepare packet. -/
def TYPE_ILP_PREPARE : Nat := 12

/-- Type discriminant of the fulfill packet. -/
def TYPE_ILP_FULFILL : Nat := 13

/-- Type discriminant of the reject packet. -/
def TYPE_ILP_REJECT : Nat := 14

/-- Character list to byte list (`Buffer.from` on text already held as chars). -/
def charsBytes (cs : List Char) : List Nat := cs.map Char.toNat

/-- Byte list to character list (`buffer.toString` on text fields). -/
def bytesChars (bs : List Nat) : List Char := bs.map Char.ofNat

theorem bytesChars_charsBytes (cs : List Char) : bytesChars (charsBytes cs) = cs := by
  unfold bytesChars charsBytes
  rw [List.map_map]
  have : (Char.ofNat ∘ Char.toNat) = id := by
    funext c; simp [Function.comp, Char.ofNat_toNat]
  rw [this, List.map_id]

/-- A decoded prepare packet (`IlpPacket.IlpPrepare`). -/
structure IlpPrepare where
  amount : String
  executionCondition : List Nat
  expiresAt : DateTime
  destination : String
  data : List Nat
deriving DecidableEq, Repr

/-- A decoded fulfill packet (`IlpPacket.IlpFulfill`). -/
structure IlpFulfill where
  fulfillment : List Nat
  data : List Nat
deriving DecidableEq, Repr

/-- A decoded reject packet (`IlpPacket.IlpReject`). -/
structure IlpReject where
  code : String
  triggeredBy : String
  message : String
  data : List Nat
deriving DecidableEq, Repr

/-- Modelled from the spec: `IlpPacket.serializeIlpPrepare`. -/
def serializeIlpPrepare (p : IlpPrepare) : List Nat :=
  TYPE_ILP_PREPARE :: varOctet (
    varOctet (strBytes p.amount) ++ varOctet p.executionCondition ++
    varOctet (charsBytes (toISOString p.expiresAt)) ++
    varOctet (strBytes p.destination) ++ varOctet p.data)

/-- Modelled from the spec: `IlpPacket.deserializeIlpPrepare`. -/
def deserializeIlpPrepare (bs : List Nat) : Option IlpPrepare :=
  match bs with
  | t :: body =>
      if t = TYPE_ILP_PREPARE then
        match readVarOctet body with
        | some (contents, rest) =>
            if rest = [] then
              match readVarOctet contents with
              | some (amountB, r1) =>
                  match readVarOctet r1 with
                  | some (cond, r2) =>
                      match readVarOctet r2 with
                      | some (dateB, r3) =>
                          match parseISODate (bytesChars dateB) with
                          | some dt =>
                              match readVarOctet r3 with
                              | some (destB, r4) =>
                                  match readVarOctet r4 with
                                  | some (dat, r5) =>
                                      if r5 = [] then
                                        some {
                                          amount := bytesStr amountB
                                          executionCondition := cond
                                          expiresAt := dt
                                          destination := bytesStr destB
                                          data := dat }
                                      else none
                                  | none => none
                              | none => none
                          | none => none
                      | none => none
                  | none => none
              | none => none
            else none
        | none => none
      else none
  | [] => none

/-- Modelled from the spec: `IlpPacket.serializeIlpFulfill`. -/
def serializeIlpFulfill (f : IlpFulfill) : List Nat :=
  TYPE_ILP_FULFILL :: varOctet (varOctet f.fulfillment ++ varOctet f.data)

/-- Modelled from the spec: `IlpPacket.deserializeIlpFulfill`. -/
def deserializeIlpFulfill (bs : List Nat) : Option IlpFulfill :=
  match bs with
  | t :: body =>
      if t = TYPE_ILP_FULFILL then
        match readVarOctet body with
        | some (contents, rest) =>
            if rest = [] then
              match readVarOctet contents with
              | some (ful, r1) =>
                  match readVarOctet r1 with
                  | some (dat, r2) => if r2 = [] then some ⟨ful, dat⟩ else none
                  | none => none
              | none => none
            else none
        | none => none
      else none
  | [] => none

/-- Modelled from the spec: `IlpPacket.serializeIlpFulfillment` (the V1
fulfillment response record, which carries only response data). -/
def serializeIlpFulfillment (data : List Nat) : List Nat :=
  TYPE_ILP_FULFILLMENT :: varOctet (varOctet data)

/-- Modelled from the spec: `IlpPacket.deserializeIlpFulfillment`. -/
def deserializeIlpFulfillment (bs : List Nat) : Option (List Nat) :=
  match bs with
  | t :: body =>
      if t = TYPE_ILP_FULFILLMENT then
        match readVarOctet body with
        | some (contents, rest) =>
            if rest = [] then
              match readVarOctet contents with
              | some (dat, r1) => if r1 = [] then some dat else none
              | none => none
            else none
        | none => none
      else none
  | [] => none

/-- Modelled from the spec: `IlpPacket.serializeIlpReject`; the failure code
is written as exactly three octets, so a code of any other length raises. -/
def serializeIlpReject (r : IlpReject) : Except String (List Nat) :=
  if (strBytes r.code).length = 3 then
    .ok (TYPE_ILP_REJECT :: varOctet (
      strBytes r.code ++ varOctet (strBytes r.triggeredBy) ++
      varOctet (strBytes r.message) ++ varOctet r.data))
  else .error "ILP reject codes must be three characters"

/-- Modelled from the spec: `IlpPacket.deserializeIlpReject`. -/
def deserializeIlpReject (bs : List Nat) : Option IlpReject :=
  match bs with
  | t :: body =>
      if t = TYPE_ILP_REJECT then
        match readVarOctet body with
        | some (c1 :: c2 :: c3 :: r1, rest) =>
            if rest = [] then
              match readVarOctet r1 with
              | some (trigB, r2) =>
                  match readVarOctet r2 with
                  | some (msgB, r3) =>
                      match readVarOctet r3 with
                      | some (dat, r4) =>
                          if r4 = [] then
                            some {
                              code := bytesStr [c1, c2, c3]
                              triggeredBy := bytesStr trigB
                              message := bytesStr msgB
                              data := dat }
                          else none
                      | none => none
                  | none => none
              | none => none
            else none
        | _ => none
      else none
  | [] => none

/-- Modelled from the spec: `IlpPacket.serializeIlpForwardedPayment`. -/
def serializeIlpForwardedPayment (account : String) (data : List Nat) : List Nat :=
  TYPE_ILP_FORWARDED_PAYMENT :: varOctet (varOctet (strBytes account) ++ varOctet data)

/-- Modelled from the spec: `IlpPacket.serializeIlpPayment` (legacy delivered
payment). -/
def serializeIlpPayment (amount account : String) (data : List Nat) : List Nat :=
  TYPE_ILP_PAYMENT :: varOctet (
    varOctet (strBytes amount) ++ varOctet (strBytes account) ++ varOctet data)

/-- Payload of a generic `IlpPacket.deserializeIlpPacket` result; only the
payment shapes are inspected by the adapter. -/
inductive PacketData where
  | fwdPayment (account : String) (data : List Nat)
  | payment (amount account : String) (data : List Nat)
  | opaqueData (contents : List Nat)
deriving DecidableEq, Repr

/-- Modelled from the spec: `IlpPacket.deserializeIlpPacket` (generic entry
point returning the type discriminant and a decoded payload). -/
def deserializeIlpPacket (bs : List Nat) : Option (Nat × PacketData) :=
  match bs with
  | t :: body =>
      match readVarOctet body with
      | some (contents, rest) =>
          if rest = [] then
            if t = TYPE_ILP_FORWARDED_PAYMENT then
              match readVarOctet contents with
              | some (accB, r1) =>
                  match readVarOctet r1 with
                  | some (dat, r2) =>
                      if r2 = [] then some (t, .fwdPayment (bytesStr accB) dat) else none
                  | none => none
              | none => none
            else if t = TYPE_ILP_PAYMENT then
              match readVarOctet contents with
              | some (amtB, r1) =>
                  match readVarOctet r1 with
                  | some (accB, r2) =>
                      match readVarOctet r2 with
                      | some (dat, r3) =>
                          if r3 = [] then
                            some (t, .payment (bytesStr amtB) (bytesStr accB) dat)
                          else none
                      | none => none
                  | none => none
              | none => none
            else some (t, .opaqueData contents)
          else none
      | none => none
  | [] => none

/-- Reading a length-prefixed octet string that ends the buffer. -/
theorem readVarOctet_varOctet_nil (bs : List Nat) :
    readVarOctet (varOctet bs) = some (bs, []) := by
  simpa using readVarOctet_varOctet bs []

/-- Decoding a serialized forwarded payment recovers the account and data. -/
theorem deserializeIlpPacket_fwd (account : String) (data : List Nat) :
    deserializeIlpPacket (serializeIlpForwardedPayment account data) =
      some (TYPE_ILP_FORWARDED_PAYMENT, .fwdPayment account data) := by
  simp [deserializeIlpPacket, serializeIlpForwardedPayment, readVarOctet_varOctet_nil,
    readVarOctet_varOctet, bytesStr_strBytes, List.append_assoc]

/-- Every byte of a serialized forwarded payment is below 256 when the
account characters and data bytes are. -/
theorem serializeIlpForwardedPayment_bytes_lt (account : String) (data : List Nat)
    (hacc : ∀ c ∈ account.data, c.toNat < 256) (hdat : ∀ b ∈ data, b < 256) :
    ∀ b ∈ serializeIlpForwardedPayment account data, b < 256 := by
  intro b hb
  unfold serializeIlpForwardedPayment at hb
  rcases List.mem_cons.mp hb with rfl | hb
  · decide
  · refine varOctet_bytes_lt _ ?_ b hb
    intro x hx
    rcases List.mem_append.mp hx with hx | hx
    · refine varOctet_bytes_lt _ ?_ x hx
      intro y hy
      unfold strBytes at hy
      obtain ⟨c, hc, rfl⟩ := List.mem_map.mp hy
      exact hacc c hc
    · exact varOctet_bytes_lt _ hdat x hx

/-- Decoding a serialized prepare packet recovers the packet, provided the
expiry components are well formed. -/
theorem deserializeIlpPrepare_serialize (p : IlpPrepare) (h : p.expiresAt.WellFormed) :
    deserializeIlpPrepare (serializeIlpPrepare p) = some p := by
  simp [deserializeIlpPrepare, serializeIlpPrepare, readVarOctet_varOctet_nil,
    readVarOctet_varOctet, bytesStr_strBytes, bytesChars_charsBytes,
    parseISODate_toISOString _ h, List.append_assoc]

/-- A successfully decoded prepare buffer starts with the prepare type byte. -/
theorem deserializeIlpPrepare_head (bs : List Nat) (p : IlpPrepare)
    (h : deserializeIlpPrepare bs = some p) : bs.head? = some TYPE_ILP_PREPARE := by
  unfold deserializeIlpPrepare at h
  match bs, h with
  | t :: body, h =>
    by_cases ht : t = TYPE_ILP_PREPARE
    · simp [ht]
    · simp [ht] at h

/-! ## Data-model converters (`src/converters.ts`) and V1 records (`src/types.ts`) -/

/-- The static failure-code lookup table `ERROR_NAMES`. -/
def ERROR_NAMES : List (String × String) :=
  [("F00", "Bad Request"), ("F01", "Invalid Packet"), ("F02", "Unreachable"),
   ("F03", "Invalid Amount"), ("F04", "Insufficient Destination Amount"),
   ("F05", "Wrong Condition"), ("F06", "Unexpected Payment"), ("F07", "Cannot Receive"),
   ("F99", "Application Error"), ("T00", "Internal Error"), ("T01", "Ledger Unreachable"),
   ("T02", "Ledger Busy"), ("T03", "Connector Busy"), ("T04", "Insufficient Liquidity"),
   ("T05", "Rate Limited"), ("T99", "Application Error"), ("R00", "Transfer Timed Out"),
   ("R01", "Insufficient Source Amount"), ("R02", "Insufficient Timeout"),
   ("R99", "Application Error")]

/-- The object shape read out of `additional_info` (`data`/`message` fields);
`none` models an absent (JS `undefined`) field. -/
structure AddInfoObj where
  data : Option (List Char) := none
  message : Option String := none
deriving DecidableEq, Repr

/-- The `additional_info` slot of a V1 rejection reason: either a JSON string
(abstracted by what `JSON.parse` yields for it: `none` when parsing throws)
or a plain object. -/
inductive AdditionalInfo where
  | strVal (parsed : Option AddInfoObj)
  | objVal (o : AddInfoObj)
deriving DecidableEq, Repr

/-- The V1 rejection-reason record (`RejectionReasonV1` in `src/types.ts`).
Fields that JS may leave `undefined` are `Option`; `triggered_at` carries no
information in the model (wall-clock time is not modelled). -/
structure RejectionReasonV1 where
  code : String
  name : Option String
  message : Option String
  triggered_by : Option String
  triggered_at : Unit := ()
  forwarded_by : String := ""
  additional_info : Option AdditionalInfo := none
deriving DecidableEq, Repr

/-- The V1 transfer record (`TransferV1` in `src/types.ts`); the opaque
`custom` map carries no information in the model. -/
structure TransferV1 where
  id : String
  to_ : Option String := none
  from_ : Option String := none
  ledger : Option String := none
  ilp : List Char
  executionCondition : List Char
  expiresAt : List Char
  amount : String
  custom : Unit := ()
deriving DecidableEq, Repr

/-- JS `a || b` on an optional string (empty strings are falsy). -/
def jsOr (a : Option String) (b : String) : String :=
  match a with
  | some s => if s = "" then b else s
  | none => b

/-- The converter `lpi1RejectionToIlpReject`: V1 rejection reason to reject
packet bytes.  The `Except` error is the exception the conversion raises
(invalid `additional_info` never raises — a failed `JSON.parse` is caught —
but the final serialization can). -/
def lpi1RejectionToIlpReject (r : RejectionReasonV1) : Except String (List Nat) :=
  let info : AddInfoObj :=
    match r.additional_info with
    | some (.strVal (some o)) => o
    | some (.strVal none) => {}
    | some (.objVal o) => o
    | none => {}
  let data : List Nat :=
    match info.data with
    | some d => if d = [] then [] else bufferFromBase64 d
    | none => []
  match r.triggered_by with
  | none => .error "triggeredBy must be a string"
  | some tb =>
      serializeIlpReject {
        code := r.code
        triggeredBy := tb
        message := jsOr r.message (jsOr info.message "")
        data := data }

/-- The converter `ilpRejectToLpi1Rejection`: reject packet bytes to a V1
rejection reason.  `name` is the raw `ERROR_NAMES[code]` table access, which
is `undefined` (`none`) for codes outside the table. -/
def ilpRejectToLpi1Rejection (packet : List Nat) : Except String RejectionReasonV1 :=
  match deserializeIlpReject packet with
  | none => .error "could not deserialize reject packet"
  | some rj =>
      .ok {
        code := rj.code
        name := (ERROR_NAMES.lookup rj.code)
        message := some rj.message
        triggered_by := some rj.triggeredBy
        triggered_at := ()
        forwarded_by := ""
        additional_info := some (.objVal ⟨some (base64url rj.data), some rj.message⟩) }

/-- The converter `ilpFulfillToLpi1Fulfillment`: fulfill packet bytes to the
V1 `(fulfillment, ilp)` text pair. -/
def ilpFulfillToLpi1Fulfillment (packet : List Nat) :
    Except String (List Char × List Char) :=
  match deserializeIlpFulfill packet with
  | none => .error "could not deserialize fulfill packet"
  | some f => .ok (base64url f.fulfillment, base64url (serializeIlpFulfillment f.data))

/-- The converter `lpi1FulfillmentToIlpFulfill`: the V1 `(fulfillment, ilp)`
text pair to fulfill packet bytes; an empty (falsy) `ilp` yields empty data. -/
def lpi1FulfillmentToIlpFulfill (fulfillment ilp : List Char) : Except String (List Nat) :=
  if ilp = [] then
    .ok (serializeIlpFulfill ⟨bufferFromBase64 fulfillment, []⟩)
  else
    match deserializeIlpFulfillment (bufferFromBase64 ilp) with
    | none => .error "could not deserialize fulfillment packet"
    | some dat => .ok (serializeIlpFulfill ⟨bufferFromBase64 fulfillment, dat⟩)

/-- The converter `ilpPrepareToLpi1Transfer`: a decoded prepare packet to a
fresh V1 transfer record.  The generated `uuid()` is passed explicitly. -/
def ilpPrepareToLpi1Transfer (uuidv : String) (p : IlpPrepare) : TransferV1 :=
  { id := uuidv
    amount := p.amount
    ilp := base64url (serializeIlpForwardedPayment p.destination p.data)
    executionCondition := base64url p.executionCondition
    expiresAt := toISOString p.expiresAt
    custom := () }

/-- The converter `lpi1TransferToIlpPrepare`: a V1 transfer record to prepare
packet bytes.  Raises on a missing packet, an undecodable packet, or a type
discriminant other than payment / forwarded payment. -/
def lpi1TransferToIlpPrepare (t : TransferV1) : Except String (List Nat) :=
  if t.ilp = [] then .error "no packet attached to transfer."
  else
    match deserializeIlpPacket (bufferFromBase64 t.ilp) with
    | none => .error "could not deserialize packet"
    | some (ty, pd) =>
        if ty ≠ TYPE_ILP_PAYMENT ∧ ty ≠ TYPE_ILP_FORWARDED_PAYMENT then
          .error "invalid type of ilp packet"
        else
          match pd with
          | .fwdPayment account dat =>
              match parseISODate t.expiresAt with
              | some dt =>
                  .ok (serializeIlpPrepare {
                    amount := t.amount
                    executionCondition := bufferFromBase64 t.executionCondition
                    expiresAt := dt
                    destination := account
                    data := dat })
              | none => .error "invalid expiry date"
          | .payment _ account dat =>
              match parseISODate t.expiresAt with
              | some dt =>
                  .ok (serializeIlpPrepare {
                    amount := t.amount
                    executionCondition := bufferFromBase64 t.executionCondition
                    expiresAt := dt
                    destination := account
                    data := dat })
              | none => .error "invalid expiry date"
          | .opaqueData _ => .error "packet payload does not carry an account"

/-! ## The adapter (`src/index.ts`)

The adapter instance is modelled as an explicit state record; each method is
a function from the old state (plus the environment read from the wrapped V1
plugin via `getInfo`/`getAccount`) to the new state, the list of effectful
V1 calls performed, and an outcome describing how the caller's promise
settles.  Pending promises are identified by tokens drawn from a counter. -/

/-- The result of the wrapped plugin's `getInfo()` query. -/
structure PluginInfo where
  ledgerPrefix : String
  connectors : List String
  currencyScale : Option Nat := none
  currency : Option String := none
deriving DecidableEq, Repr

/-- The read-only environment the adapter queries from the V1 plugin. -/
structure Env where
  info : PluginInfo
  account : String
deriving DecidableEq, Repr

/-- A V1 message record (`MessageV1` in `src/types.ts`). -/
structure MessageV1 where
  from_ : String
  to_ : String
  ledger : String
  ilp : List Char
deriving DecidableEq, Repr

/-- An effectful operation invoked on the wrapped V1 plugin. -/
inductive V1Call where
  | sendTransferCall (t : TransferV1)
  | sendRequestCall (m : MessageV1)
  | fulfillConditionCall (id : String) (fulfillment ilp : List Char)
  | rejectIncomingTransferCall (id : String) (reason : RejectionReasonV1)
deriving DecidableEq, Repr

/-- A JS value passed where a handler function is expected. -/
inductive JsFun where
  | func (tok : Nat)
  | notFunc
deriving DecidableEq, Repr

/-- The adapter's mutable state: the correlation table from transfer id to
pending-promise token, the two handler slots, and the token counter. -/
structure AdapterState where
  transfers : List (String × Nat) := []
  dataHandler : Option Nat := none
  moneyHandler : Option Nat := none
  nextTok : Nat := 0
deriving DecidableEq, Repr

/-- How a terminal V1 event settles (or fails to settle) a pending promise. -/
inductive SettleOutcome where
  | ignored
  | resolved (promise : Nat) (packet : List Nat)
  | rejectedP (promise : Nat) (err : String)
  | threw (err : String)
deriving DecidableEq, Repr

/-- Errors thrown synchronously by the registration methods. -/
inductive AdapterError where
  | dataHandlerAlreadyRegistered (msg : String)
  | moneyHandlerAlreadyRegistered (msg : String)
  | invalidFields (msg : String)
deriving DecidableEq, Repr

/-- JS string truthiness (`''` is falsy). -/
def jsTruthy (s : String) : Bool := s.data ≠ []

/-- JS `subject.startsWith(pre)` modelled on the character lists. -/
def jsStartsWith (subject pre : String) : Bool := pre.data.isPrefixOf subject.data

/-- JS `s.substring(n)` modelled on the character lists. -/
def jsDropChars (s : String) (n : Nat) : String := String.mk (s.data.drop n)

/-- JS `s.split('.')[0]`: the characters before the first dot. -/
def jsFirstSegment (s : String) : String := String.mk (s.data.takeWhile (fun c => c ≠ '.'))

/-- String concatenation on the character lists. -/
def jsConcat (a b : String) : String := String.mk (a.data ++ b.data)

/-- The routing helper `_getTo` (`src/index.ts`): a destination under the
local ledger gets routed to its first local segment, anything else to the
first configured connector; a falsy result throws. -/
def getTo (env : Env) (destination : Option String) : Except String String :=
  let px := env.info.ledgerPrefix
  let to_ : Option String :=
    match destination with
    | some d =>
        if jsTruthy d && jsStartsWith d px then
          some (jsConcat px (jsFirstSegment (jsDropChars d px.data.length)))
        else env.info.connectors.head?
    | none => env.info.connectors.head?
  match to_ with
  | some t => if jsTruthy t then .ok t else .error "No valid destination"
  | none => .error "No valid destination"

/-- The reserved all-zero peer-protocol fulfillment preimage. -/
def PEER_PROTOCOL_FULFILLMENT : List Nat := List.replicate 32 0

/-- The ILDCP payload written by `_getIldcpResponse`: the account name, the
currency scale (`info.currencyScale || 9`, so a zero or absent scale becomes
9), and the currency code, as a var-octet sequence. -/
def ildcpData (env : Env) : List Nat :=
  varOctet (strBytes env.account) ++
    [(match env.info.currencyScale with
      | some n => if n = 0 then 9 else n
      | none => 9)] ++
    varOctet (strBytes (match env.info.currency with | some c => c | none => ""))

/-- The configuration shortcut `_getIldcpResponse` (`src/index.ts`). -/
def getIldcpResponse (env : Env) : List Nat :=
  serializeIlpFulfill { fulfillment := PEER_PROTOCOL_FULFILLMENT, data := ildcpData env }

/-- How a `sendData` call concludes from the caller's perspective. -/
inductive SendDataOutcome where
  | resolvedNow (response : List Nat)
  | pending (promise : Nat)
  | requested (m : MessageV1)
  | threw (err : String)
deriving DecidableEq, Repr

/-- The V2 `sendData` method (`src/index.ts`).  A prepare packet destined to
`peer.config` short-circuits to the ILDCP response; any other prepare packet
becomes a V1 transfer with a fresh correlation entry; a non-prepare packet is
forwarded over the legacy request channel.  The generated `uuid()` is passed
explicitly. -/
def sendData (env : Env) (uuidv : String) (s : AdapterState) (data : List Nat) :
    AdapterState × List V1Call × SendDataOutcome :=
  if data.head? = some TYPE_ILP_PREPARE then
    match deserializeIlpPrepare data with
    | none => (s, [], .threw "could not deserialize prepare packet")
    | some p =>
        if p.destination = "peer.config" then
          (s, [], .resolvedNow (getIldcpResponse env))
        else
          match getTo env (some p.destination) with
          | .error e => (s, [], .threw e)
          | .ok dest =>
              let t0 := ilpPrepareToLpi1Transfer uuidv p
              let t := { t0 with
                to_ := some dest
                from_ := some env.account
                ledger := some env.info.ledgerPrefix }
              ({ s with
                  transfers := s.transfers ++ [(t.id, s.nextTok)]
                  nextTok := s.nextTok + 1 },
               [.sendTransferCall t], .pending s.nextTok)
  else
    match getTo env none with
    | .error e => (s, [], .threw e)
    | .ok dest =>
        let m : MessageV1 := {
          from_ := env.account
          to_ := dest
          ledger := env.info.ledgerPrefix
          ilp := base64url data }
        (s, [.sendRequestCall m], .requested m)

/-- The V2 `sendMoney` method (`src/index.ts`): an immediate no-op resolve. -/
def sendMoney (s : AdapterState) (amount : String) :
    AdapterState × List V1Call × Except String Unit :=
  (s, [], .ok ())

/-- The V2 `registerDataHandler` method (`src/index.ts`): occupancy is
checked before callability; a thrown error leaves the state untouched. -/
def registerDataHandler (s : AdapterState) (handler : JsFun) :
    AdapterState × Option AdapterError :=
  match s.dataHandler with
  | some _ => (s, some (.dataHandlerAlreadyRegistered "data handler is already registered."))
  | none =>
      match handler with
      | .notFunc => (s, some (.invalidFields "data handler must be a function."))
      | .func tok => ({ s with dataHandler := some tok }, none)

/-- The V2 `deregisterDataHandler` method: unconditionally clears the slot. -/
def deregisterDataHandler (s : AdapterState) : AdapterState :=
  { s with dataHandler := none }

/-- The V2 `registerMoneyHandler` method (`src/index.ts`). -/
def registerMoneyHandler (s : AdapterState) (handler : JsFun) :
    AdapterState × Option AdapterError :=
  match s.moneyHandler with
  | some _ => (s, some (.moneyHandlerAlreadyRegistered "money handler is already registered."))
  | none =>
      match handler with
      | .notFunc => (s, some (.invalidFields "money handler must be a function."))
      | .func tok => ({ s with moneyHandler := some tok }, none)

/-- The V2 `deregisterMoneyHandler` method: unconditionally clears the slot. -/
def deregisterMoneyHandler (s : AdapterState) : AdapterState :=
  { s with moneyHandler := none }

/-- The `outgoing_fulfill` event handler `_handleOutgoingFulfill`
(`src/index.ts`): an unknown id is ignored; otherwise the response is
converted and the pending promise resolved.  A conversion failure escapes
the handler (there is no try/catch on this path).  The correlation entry is
never deleted. -/
def handleOutgoingFulfill (s : AdapterState) (tid : String)
    (fulfillment ilp : List Char) : AdapterState × SettleOutcome :=
  match s.transfers.lookup tid with
  | none => (s, .ignored)
  | some tok =>
      match lpi1FulfillmentToIlpFulfill fulfillment ilp with
      | .ok pkt => (s, .resolved tok pkt)
      | .error e => (s, .threw e)

/-- Which terminal rejection event fired (`outgoing_reject` or
`outgoing_cancel`); both are bound to the same handler. -/
inductive RejType where
  | rejectEvent
  | cancelEvent
deriving DecidableEq, Repr

/-- The `outgoing_reject` / `outgoing_cancel` event handler
`_handleOutgoingReject` (`src/index.ts`): an unknown id is ignored; a
successful conversion of the rejection reason RESOLVES the pending promise
with the reject packet; only a conversion failure rejects it, with that
error.  The correlation entry is never deleted. -/
def handleOutgoingReject (s : AdapterState) (ty : RejType) (tid : String)
    (reason : RejectionReasonV1) : AdapterState × SettleOutcome :=
  match s.transfers.lookup tid with
  | none => (s, .ignored)
  | some tok =>
      match lpi1RejectionToIlpReject reason with
      | .ok pkt => (s, .resolved tok pkt)
      | .error e => (s, .rejectedP tok e)

/-! ## Idempotent wrapping (`convert`, `src/index.ts`)

Object identity is modelled by a heap: objects are records addressed by
index, allocation appends.  Only the properties `convert` inspects are
modelled: the constructor's `version` marker, the presence of a callable
`sendTransfer`, and the `COMPAT_SYMBOL` slot. -/

/-- A JS object as seen by `convert`. -/
structure JsObj where
  version : Option Nat := none
  hasSendTransfer : Bool := false
  compat : Option Nat := none
deriving DecidableEq, Repr

/-- A heap of JS objects; the index into the list is the object's identity. -/
structure Heap where
  objs : List JsObj := []
deriving DecidableEq, Repr

/-- A JS value passed to `convert`: an object reference or a primitive. -/
inductive JsValue where
  | ref (id : Nat)
  | prim
deriving DecidableEq, Repr

/-- The freshly constructed compat `Plugin` instance: its class carries the
static `version = 2` marker, it exposes no V1 `sendTransfer`, and its compat
slot is empty. -/
def compatPluginObj : JsObj := { version := some 2, hasSendTransfer := false, compat := none }

/-- The module entry point `convert` (`src/index.ts`): reject non-objects,
pass version-2 plugins through unchanged, reject objects without a
`sendTransfer`, return a cached adapter when one exists, and otherwise
allocate a new adapter and cache it on the wrapped plugin. -/
def convert (h : Heap) (v : JsValue) : Except String (Heap × Nat) :=
  match v with
  | .prim => .error "not a plugin: not an object"
  | .ref id =>
      match h.objs.get? id with
      | none => .error "not a plugin: not an object"
      | some o =>
          if o.version = some 2 then .ok (h, id)
          else if !o.hasSendTransfer then .error "not a plugin: no sendTransfer method"
          else
            match o.compat with
            | some cid => .ok (h, cid)
            | none =>
                let nid := h.objs.length
                let objs' := (h.objs.set id { o with compat := some nid }) ++ [compatPluginObj]
                .ok (⟨objs'⟩, nid)

/-! ## Claim theorems -/

/-- C1: for every pending outgoing transfer, an `outgoing_reject` or
`outgoing_cancel` event with that transfer's id converts the V1 rejection
reason into a V2 reject packet and RESOLVES the pending promise with that
packet; the promise is rejected only when the conversion itself raises, and
then with exactly that conversion error. -/
theorem outgoing_reject_resolves_promise
    (s : AdapterState) (ty : RejType) (tid : String) (reason : RejectionReasonV1)
    (tok : Nat) (hpend : s.transfers.lookup tid = some tok) :
    (∀ pkt, lpi1RejectionToIlpReject reason = .ok pkt →
        handleOutgoingReject s ty tid reason = (s, .resolved tok pkt)) ∧
    (∀ e, lpi1RejectionToIlpReject reason = .error e →
        handleOutgoingReject s ty tid reason = (s, .rejectedP tok e)) := by
  constructor <;> intro x hx <;> simp [handleOutgoingReject, hpend, hx]

/-- Concrete run of C1: a tracked transfer rejected with a well-formed `T01`
reason resolves the pending promise with the converted reject packet. -/
theorem outgoing_reject_resolves_promise_witness :
    handleOutgoingReject ⟨[("t1", 0)], none, none, 1⟩ .rejectEvent "t1"
        ⟨"T01", some "Ledger Unreachable", some "m", some "g.a", (), "", none⟩ =
      (⟨[("t1", 0)], none, none, 1⟩, .resolved 0 [14, 10, 84, 48, 49, 3, 103, 46, 97, 1, 109, 0]) :=
  (outgoing_reject_resolves_promise ⟨[("t1", 0)], none, none, 1⟩ .rejectEvent "t1"
      ⟨"T01", some "Ledger Unreachable", some "m", some "g.a", (), "", none⟩ 0 (by decide)).1
    [14, 10, 84, 48, 49, 3, 103, 46, 97, 1, 109, 0] (by decide)

/-- C2 counterexample: the claim states that the correlation entry is
removed once the terminal event settles the promise.  At this concrete
input the `outgoing_fulfill` event settles the promise, yet the entry for
the transfer id is still present afterwards — the handlers never delete
entries. -/
theorem correlation_entry_not_removed_counterexample :
    (handleOutgoingFulfill ⟨[("t1", 0)], none, none, 1⟩ "t1"
        (base64url (List.replicate 32 0)) []).2 =
      .resolved 0 (serializeIlpFulfill ⟨List.replicate 32 0, []⟩) ∧
    ¬ ((handleOutgoingFulfill ⟨[("t1", 0)], none, none, 1⟩ "t1"
        (base64url (List.replicate 32 0)) []).1.transfers.lookup "t1" = none) := by
  constructor
  · decide
  · decide

/-- C2 (amended): when the matching terminal event arrives for a tracked
transfer, the pending promise is settled (resolved or rejected; on the
fulfill path a conversion failure escapes instead), but the correlation
entry is NOT removed — the correlation table is left completely unchanged,
so the entry would be hit again by a duplicate terminal event. -/
theorem correlation_entry_persists
    (s : AdapterState) (tid : String) (tok : Nat) (ty : RejType)
    (reason : RejectionReasonV1) (fulfillment ilp : List Char)
    (hpend : s.transfers.lookup tid = some tok) :
    ((handleOutgoingFulfill s tid fulfillment ilp).1 = s ∧
      (handleOutgoingFulfill s tid fulfillment ilp).2 ≠ .ignored) ∧
    ((handleOutgoingReject s ty tid reason).1 = s ∧
      (handleOutgoingReject s ty tid reason).2 ≠ .ignored) := by
  constructor
  · unfold handleOutgoingFulfill
    rw [hpend]
    cases lpi1FulfillmentToIlpFulfill fulfillment ilp <;> simp
  · unfold handleOutgoingReject
    rw [hpend]
    cases lpi1RejectionToIlpReject reason <;> simp

/-- Concrete run of the amended C2: both terminal events leave the
single-entry correlation table untouched while settling the promise. -/
theorem correlation_entry_persists_witness :
    ((handleOutgoingFulfill ⟨[("t1", 0)], none, none, 1⟩ "t1"
        (base64url (List.replicate 32 0)) []).1 = ⟨[("t1", 0)], none, none, 1⟩ ∧
      (handleOutgoingFulfill ⟨[("t1", 0)], none, none, 1⟩ "t1"
        (base64url (List.replicate 32 0)) []).2 ≠ .ignored) ∧
    ((handleOutgoingReject ⟨[("t1", 0)], none, none, 1⟩ .cancelEvent "t1"
        ⟨"T01", some "Ledger Unreachable", some "m", some "g.a", (), "", none⟩).1 =
          ⟨[("t1", 0)], none, none, 1⟩ ∧
      (handleOutgoingReject ⟨[("t1", 0)], none, none, 1⟩ .cancelEvent "t1"
        ⟨"T01", some "Ledger Unreachable", some "m", some "g.a", (), "", none⟩).2 ≠ .ignored) :=
  correlation_entry_persists ⟨[("t1", 0)], none, none, 1⟩ "t1" 0 .cancelEvent
    ⟨"T01", some "Ledger Unreachable", some "m", some "g.a", (), "", none⟩
    (base64url (List.replicate 32 0)) [] (by decide)

/-- C10: `sendMoney` resolves with unit while performing no call on the
wrapped V1 plugin and leaving the correlation table and both handler slots
(and the whole adapter state) unchanged. -/
theorem sendMoney_is_noop (s : AdapterState) (amount : String) :
    sendMoney s amount = (s, [], .ok ()) ∧
    (sendMoney s amount).1.transfers = s.transfers ∧
    (sendMoney s amount).1.dataHandler = s.dataHandler ∧
    (sendMoney s amount).1.moneyHandler = s.moneyHandler :=
  ⟨rfl, rfl, rfl, rfl⟩

theorem data_ne_nil_of_ne_empty {s : String} (h : s ≠ "") : s.data ≠ [] := by
  intro h0
  exact h (String.ext (by rw [h0]))

theorem jsTruthy_of_data_ne {s : String} (h : s.data ≠ []) : jsTruthy s = true := by
  unfold jsTruthy
  exact decide_eq_true h

theorem data_ne_of_jsStartsWith {d px : String} (hpx : px.data ≠ [])
    (h : jsStartsWith d px = true) : d.data ≠ [] := by
  unfold jsStartsWith at h
  rw [List.isPrefixOf_iff_prefix] at h
  obtain ⟨t, ht⟩ := h
  intro h0
  rw [h0] at ht
  exact hpx (List.append_eq_nil.mp ht).1

theorem jsConcat_data_ne {a : String} (b : String) (ha : a.data ≠ []) :
    (jsConcat a b).data ≠ [] := by
  unfold jsConcat
  intro h0
  exact ha (List.append_eq_nil.mp h0).1

/-- C5: routing. For a nonempty ledger prefix and a nonempty first
connector (when one is configured): a present destination starting with the
prefix routes to the prefix followed by the first address segment after it;
otherwise the first configured connector is returned; and a routing error is
thrown exactly when neither a matching local destination nor a connector is
available. -/
theorem getTo_routing (env : Env) (destination : Option String)
    (hp : env.info.ledgerPrefix ≠ "")
    (hc : ∀ c ∈ env.info.connectors.head?, c ≠ "") :
    (∀ d, destination = some d → jsStartsWith d env.info.ledgerPrefix = true →
        getTo env destination =
          .ok (jsConcat env.info.ledgerPrefix
            (jsFirstSegment (jsDropChars d env.info.ledgerPrefix.data.length)))) ∧
    ((∀ d, destination = some d → jsStartsWith d env.info.ledgerPrefix = false) →
        ∀ c, env.info.connectors.head? = some c → getTo env destination = .ok c) ∧
    ((∃ e, getTo env destination = .error e) ↔
      ((∀ d, destination = some d → jsStartsWith d env.info.ledgerPrefix = false) ∧
        env.info.connectors.head? = none)) := by
  have hpx : env.info.ledgerPrefix.data ≠ [] := data_ne_nil_of_ne_empty hp
  have hlocal : ∀ d, jsStartsWith d env.info.ledgerPrefix = true →
      getTo env (some d) =
        .ok (jsConcat env.info.ledgerPrefix
          (jsFirstSegment (jsDropChars d env.info.ledgerPrefix.data.length))) := by
    intro d hstart
    have hd := jsTruthy_of_data_ne (data_ne_of_jsStartsWith hpx hstart)
    have hres := jsTruthy_of_data_ne
      (jsConcat_data_ne (jsFirstSegment (jsDropChars d env.info.ledgerPrefix.data.length)) hpx)
    simp only [getTo, hd, hstart, Bool.and_self, if_true, hres]
  have hconn : ∀ c, env.info.connectors.head? = some c →
      (∀ d, destination = some d → jsStartsWith d env.info.ledgerPrefix = false) →
      getTo env destination = .ok c := by
    intro c hc' hnl
    have hct := jsTruthy_of_data_ne (data_ne_nil_of_ne_empty (hc c (by rw [hc']; rfl)))
    cases destination with
    | none => simp only [getTo, hc', hct, if_true]
    | some d => simp only [getTo, hnl d rfl, Bool.and_false, if_neg Bool.false_ne_true, hc', hct, if_true]
  refine ⟨fun d hd hstart => hd ▸ hlocal d hstart, fun hnl c hc' => hconn c hc' hnl, ?_, ?_⟩
  · rintro ⟨e, he⟩
    by_cases hl : ∃ d, destination = some d ∧ jsStartsWith d env.info.ledgerPrefix = true
    · obtain ⟨d, rfl, hstart⟩ := hl
      rw [hlocal d hstart] at he
      cases he
    · push_neg at hl
      have hnl : ∀ d, destination = some d → jsStartsWith d env.info.ledgerPrefix = false := by
        intro d hd
        simpa using hl d hd
      refine ⟨hnl, ?_⟩
      cases hhead : env.info.connectors.head? with
      | none => rfl
      | some c =>
          rw [hconn c hhead hnl] at he
          cases he
  · rintro ⟨hnl, hhead⟩
    refine ⟨"No valid destination", ?_⟩
    cases destination with
    | none => simp only [getTo, hhead]
    | some d => simp only [getTo, hnl d rfl, Bool.and_false, if_neg Bool.false_ne_true, hhead]

/-- Concrete run of C5: the spec's routing example — prefix `g.usd.` and
destination `g.usd.bob.invoices.42` route to the local account `g.usd.bob`. -/
theorem getTo_routing_witness :
    getTo ⟨⟨"g.usd.", ["g.usd.connie"], none, none⟩, "g.usd.alice"⟩
        (some "g.usd.bob.invoices.42") = .ok "g.usd.bob" := by
  have h := (getTo_routing ⟨⟨"g.usd.", ["g.usd.connie"], none, none⟩, "g.usd.alice"⟩
      (some "g.usd.bob.invoices.42") (by decide) (by decide)).1
    "g.usd.bob.invoices.42" rfl (by decide)
  rw [h]
  decide

/-- C6: registering a data handler while one is registered throws
`AlreadyRegistered` and leaves the state (hence the stored handler)
untouched; after a deregistration a callable handler registers
successfully (touching nothing but the data slot); a non-callable handler
on a free slot throws `InvalidArgument` and leaves the slot empty; and the
money-handler slot obeys the same contract independently. -/
theorem register_handler_contract (s1 s2 : AdapterState) (v : JsFun) (tok tok2 : Nat)
    (hd1 : s1.dataHandler = some tok) (hd2 : s2.dataHandler = none)
    (hm1 : s1.moneyHandler = some tok) (hm2 : s2.moneyHandler = none) :
    (registerDataHandler s1 v =
        (s1, some (.dataHandlerAlreadyRegistered "data handler is already registered."))) ∧
    (registerDataHandler (deregisterDataHandler s1) (.func tok2) =
        ({ s1 with dataHandler := some tok2 }, none)) ∧
    (registerDataHandler s2 .notFunc =
        (s2, some (.invalidFields "data handler must be a function."))) ∧
    (registerMoneyHandler s1 v =
        (s1, some (.moneyHandlerAlreadyRegistered "money handler is already registered."))) ∧
    (registerMoneyHandler (deregisterMoneyHandler s1) (.func tok2) =
        ({ s1 with moneyHandler := some tok2 }, none)) ∧
    (registerMoneyHandler s2 .notFunc =
        (s2, some (.invalidFields "money handler must be a function."))) := by
  refine ⟨?_, ?_, ?_, ?_, ?_, ?_⟩
  · unfold registerDataHandler; rw [hd1]
  · unfold registerDataHandler deregisterDataHandler; rfl
  · unfold registerDataHandler; rw [hd2]
  · unfold registerMoneyHandler; rw [hm1]
  · unfold registerMoneyHandler deregisterMoneyHandler; rfl
  · unfold registerMoneyHandler; rw [hm2]

/-- Concrete run of C6 on a state with both slots occupied (`s1`) and a
state with both slots free (`s2`). -/
theorem register_handler_contract_witness :
    (registerDataHandler ⟨[], some 5, some 5, 0⟩ (.func 7) =
        (⟨[], some 5, some 5, 0⟩,
          some (.dataHandlerAlreadyRegistered "data handler is already registered."))) ∧
    (registerDataHandler (deregisterDataHandler ⟨[], some 5, some 5, 0⟩) (.func 9) =
        (⟨[], some 9, some 5, 0⟩, none)) ∧
    (registerDataHandler ⟨[], none, none, 0⟩ .notFunc =
        (⟨[], none, none, 0⟩, some (.invalidFields "data handler must be a function."))) ∧
    (registerMoneyHandler ⟨[], some 5, some 5, 0⟩ (.func 7) =
        (⟨[], some 5, some 5, 0⟩,
          some (.moneyHandlerAlreadyRegistered "money handler is already registered."))) ∧
    (registerMoneyHandler (deregisterMoneyHandler ⟨[], some 5, some 5, 0⟩) (.func 9) =
        (⟨[], some 5, some 9, 0⟩, none)) ∧
    (registerMoneyHandler ⟨[], none, none, 0⟩ .notFunc =
        (⟨[], none, none, 0⟩, some (.invalidFields "money handler must be a function."))) :=
  register_handler_contract ⟨[], some 5, some 5, 0⟩ ⟨[], none, none, 0⟩ (.func 7) 5 9
    (by decide) (by decide) (by decide) (by decide)

/-- C3: wrapping is idempotent and V2 objects pass through.  (1) Any object
whose constructor reports version 2 is returned identically, with the heap
(and hence every subscription) untouched.  (2) Wrapping a fresh V1 plugin
allocates one adapter `y` and caches it; converting `y` again returns `y`
itself (it reports version 2), and converting the same V1 plugin again also
returns `y` — so `convert (convert x) = convert x` and repeated wrapping
yields the same adapter instance.  (3) The same holds when a cached adapter
already exists. -/
theorem convert_idempotent_passthrough (h : Heap) (x : Nat) (o : JsObj)
    (hx : h.objs.get? x = some o) :
    (o.version = some 2 → convert h (.ref x) = .ok (h, x)) ∧
    (o.version ≠ some 2 → o.hasSendTransfer = true → o.compat = none →
      convert h (.ref x) =
        .ok (⟨(h.objs.set x { o with compat := some h.objs.length }) ++ [compatPluginObj]⟩,
          h.objs.length) ∧
      convert ⟨(h.objs.set x { o with compat := some h.objs.length }) ++ [compatPluginObj]⟩
          (.ref h.objs.length) =
        .ok (⟨(h.objs.set x { o with compat := some h.objs.length }) ++ [compatPluginObj]⟩,
          h.objs.length) ∧
      convert ⟨(h.objs.set x { o with compat := some h.objs.length }) ++ [compatPluginObj]⟩
          (.ref x) =
        .ok (⟨(h.objs.set x { o with compat := some h.objs.length }) ++ [compatPluginObj]⟩,
          h.objs.length)) ∧
    (o.version ≠ some 2 → o.hasSendTransfer = true →
      ∀ c oc, o.compat = some c → h.objs.get? c = some oc → oc.version = some 2 →
        convert h (.ref x) = .ok (h, c) ∧ convert h (.ref c) = .ok (h, c)) := by
  have hxlen : x < h.objs.length := by
    by_contra hge
    rw [List.get?_eq_none.mpr (by omega)] at hx
    cases hx
  have hx' : h.objs[x]? = some o := by rw [← List.get?_eq_getElem?]; exact hx
  refine ⟨?_, ?_, ?_⟩
  · intro hv2
    simp [convert, hx', hv2]
  · intro hv hst hcn
    set o' : JsObj := { o with compat := some h.objs.length } with ho'
    set A := h.objs.set x o' with hA
    have hsetlen : A.length = h.objs.length := List.length_set ..
    have hgety : (A ++ [compatPluginObj])[h.objs.length]? = some compatPluginObj := by
      have hcl := List.get?_concat_length A compatPluginObj
      rw [hsetlen, List.get?_eq_getElem?] at hcl
      exact hcl
    have hgetx : (A ++ [compatPluginObj])[x]? = some o' := by
      rw [← List.get?_eq_getElem?]
      rw [List.get?_append (by rw [hsetlen]; exact hxlen)]
      rw [hA]
      simp only [List.get?_eq_getElem?]
      exact List.getElem?_set_eq_of_lt o' hxlen
    refine ⟨?_, ?_, ?_⟩
    · simp [convert, hx', hv, hst, hcn]
      rw [hA, ← hst]
    · unfold convert
      have hgety' : (A ++ [compatPluginObj]).get? h.objs.length = some compatPluginObj := by
        rw [List.get?_eq_getElem?]
        exact hgety
      simp only [hgety']
      rfl
    · unfold convert
      have hgetx' : (A ++ [compatPluginObj]).get? x = some o' := by
        rw [List.get?_eq_getElem?]
        exact hgetx
      simp only [hgetx']
      have hv' : o'.version ≠ some 2 := hv
      rw [if_neg hv']
      have hstt : o'.hasSendTransfer = true := hst
      simp [hstt]
      exact hst
  · intro hv hst c oc hcc hgc hv2
    have hgc' : h.objs[c]? = some oc := by rw [← List.get?_eq_getElem?]; exact hgc
    exact ⟨by simp [convert, hx', hv, hst, hcc], by simp [convert, hgc', hv2]⟩

/-- Concrete run of C3: wrapping a one-object heap holding a bare V1 plugin
allocates the adapter at index 1; converting that adapter, or the plugin
again, returns the same adapter with the heap unchanged. -/
theorem convert_idempotent_passthrough_witness :
    convert ⟨[{ version := none, hasSendTransfer := true, compat := none }]⟩ (.ref 0) =
      .ok (⟨[{ version := none, hasSendTransfer := true, compat := some 1 },
             compatPluginObj]⟩, 1) ∧
    convert ⟨[{ version := none, hasSendTransfer := true, compat := some 1 },
             compatPluginObj]⟩ (.ref 1) =
      .ok (⟨[{ version := none, hasSendTransfer := true, compat := some 1 },
             compatPluginObj]⟩, 1) ∧
    convert ⟨[{ version := none, hasSendTransfer := true, compat := some 1 },
             compatPluginObj]⟩ (.ref 0) =
      .ok (⟨[{ version := none, hasSendTransfer := true, compat := some 1 },
             compatPluginObj]⟩, 1) :=
  (convert_idempotent_passthrough
      ⟨[{ version := none, hasSendTransfer := true, compat := none }]⟩ 0
      { version := none, hasSendTransfer := true, compat := none } (by decide)).2.1
    (by decide) (by decide) (by decide)

/-- The ILDCP data layout asserted by the claim: account name, then the
currency scale exactly as obtained from the plugin (with the default 9 only
when the scale is absent), then the currency code.  This follows the claim's
wording; the code instead applies `|| 9`, which also replaces a zero scale. -/
def ildcpDataClaimed (env : Env) : List Nat :=
  varOctet (strBytes env.account) ++
    [(match env.info.currencyScale with | some n => n | none => 9)] ++
    varOctet (strBytes (match env.info.currency with | some c => c | none => ""))

/-- A prepare packet destined to the reserved peer-configuration address,
used as the concrete configuration-shortcut input. -/
def peerConfigPacket : List Nat :=
  serializeIlpPrepare ⟨"10", [1, 2, 3], ⟨2017, 12, 23, 1, 21, 40, 549⟩, "peer.config", [7]⟩

/-- C4 counterexample: on a plugin reporting currency scale 0, the claim as
stated (the fulfill data encodes the scale obtained from the plugin) fails —
`sendData` answers with the default scale 9 instead of 0, because the code
computes `info.currencyScale || 9` and `0` is falsy. -/
theorem sendData_peer_config_counterexample :
    sendData ⟨⟨"g.usd.", [], some 0, some "USD"⟩, "g.usd.alice"⟩ "u1" {} peerConfigPacket ≠
      (({} : AdapterState), [],
        .resolvedNow (serializeIlpFulfill
          { fulfillment := PEER_PROTOCOL_FULFILLMENT
            data := ildcpDataClaimed ⟨⟨"g.usd.", [], some 0, some "USD"⟩, "g.usd.alice"⟩ })) := by
  decide

/-- C4 (amended): a prepare packet destined to `peer.config` never invokes
the V1 `sendTransfer` (no V1 call at all, state untouched) and resolves
immediately with a fulfill packet whose preimage is 32 zero bytes and whose
data encodes the account name, `currencyScale || 9` (the scale obtained
from the plugin when nonzero, 9 when zero or absent), and the currency
code. -/
theorem sendData_peer_config_shortcut (env : Env) (uuidv : String) (s : AdapterState)
    (buf : List Nat) (p : IlpPrepare)
    (hparse : deserializeIlpPrepare buf = some p)
    (hdest : p.destination = "peer.config") :
    sendData env uuidv s buf =
      (s, [], .resolvedNow (serializeIlpFulfill
        { fulfillment := List.replicate 32 0, data := ildcpData env })) := by
  have hh := deserializeIlpPrepare_head buf p hparse
  unfold sendData
  rw [hh]
  simp [hparse, hdest, getIldcpResponse, PEER_PROTOCOL_FULFILLMENT]

/-- Concrete run of the amended C4: the shortcut on a scale-2 plugin. -/
theorem sendData_peer_config_shortcut_witness :
    sendData ⟨⟨"g.usd.", [], some 2, some "USD"⟩, "g.usd.alice"⟩ "u1" {} peerConfigPacket =
      (({} : AdapterState), [],
        .resolvedNow (serializeIlpFulfill
          { fulfillment := List.replicate 32 0
            data := ildcpData ⟨⟨"g.usd.", [], some 2, some "USD"⟩, "g.usd.alice"⟩ })) :=
  sendData_peer_config_shortcut ⟨⟨"g.usd.", [], some 2, some "USD"⟩, "g.usd.alice"⟩ "u1" {}
    peerConfigPacket ⟨"10", [1, 2, 3], ⟨2017, 12, 23, 1, 21, 40, 549⟩, "peer.config", [7]⟩
    (by decide) (by decide)

/-- C7: converting a valid prepare packet to a V1 transfer record and back
reproduces the packet exactly — in particular its amount, execution
condition, expiry timestamp, and destination address. -/
theorem prepare_transfer_roundtrip (uuidv : String) (p : IlpPrepare)
    (hcond : ∀ b ∈ p.executionCondition, b < 256)
    (hdata : ∀ b ∈ p.data, b < 256)
    (hdest : ∀ c ∈ p.destination.data, c.toNat < 256)
    (hdate : p.expiresAt.WellFormed) :
    lpi1TransferToIlpPrepare (ilpPrepareToLpi1Transfer uuidv p) =
      .ok (serializeIlpPrepare p) := by
  have hfwd : ∀ b ∈ serializeIlpForwardedPayment p.destination p.data, b < 256 :=
    serializeIlpForwardedPayment_bytes_lt _ _ hdest hdata
  have hilp : bufferFromBase64 (base64url (serializeIlpForwardedPayment p.destination p.data)) =
      serializeIlpForwardedPayment p.destination p.data :=
    bufferFromBase64_base64url _ hfwd
  have hcond' : bufferFromBase64 (base64url p.executionCondition) = p.executionCondition :=
    bufferFromBase64_base64url _ hcond
  have hne : base64url (serializeIlpForwardedPayment p.destination p.data) ≠ [] := by
    intro h0
    rw [h0] at hilp
    have h1 : serializeIlpForwardedPayment p.destination p.data = [] := by
      rw [← hilp]
      rfl
    simp [serializeIlpForwardedPayment] at h1
  unfold ilpPrepareToLpi1Transfer lpi1TransferToIlpPrepare
  simp only [hilp, hcond', deserializeIlpPacket_fwd, if_neg hne,
    parseISODate_toISOString _ hdate]
  have hguard : ¬ (TYPE_ILP_FORWARDED_PAYMENT ≠ TYPE_ILP_PAYMENT ∧
      TYPE_ILP_FORWARDED_PAYMENT ≠ TYPE_ILP_FORWARDED_PAYMENT) := by decide
  rw [if_neg hguard]

/-- Concrete run of C7: a prepare packet for 10 units to `g.usd.bob`
round-trips through the V1 transfer record unchanged. -/
theorem prepare_transfer_roundtrip_witness :
    lpi1TransferToIlpPrepare (ilpPrepareToLpi1Transfer "u1"
        ⟨"10", [1, 2, 3], ⟨2017, 12, 23, 1, 21, 40, 549⟩, "g.usd.bob", [7]⟩) =
      .ok (serializeIlpPrepare
        ⟨"10", [1, 2, 3], ⟨2017, 12, 23, 1, 21, 40, 549⟩, "g.usd.bob", [7]⟩) :=
  prepare_transfer_roundtrip "u1"
    ⟨"10", [1, 2, 3], ⟨2017, 12, 23, 1, 21, 40, 549⟩, "g.usd.bob", [7]⟩
    (by decide) (by decide) (by decide) (by decide)

/-- C8: at the one-byte buffer `0xfb` the `base64url` helper strips only the
final one of the two padding characters (JS `replace(/=$/g, '')` matches
only at the very end), so the output is `-w=` and still ends in `'='` —
contradicting the claim that all trailing padding is stripped (the intended
output is `-w`).  The `+` → `-` replacement is visible in the same run. -/
theorem base64url_keeps_second_padding_char :
    base64url [251] = ['-', 'w', '='] ∧ (base64url [251]).getLast? = some '=' := by
  decide

/-- C9: the reject packet with unknown failure code `X99` (here shown to be
exactly the serialization of that reject) converts successfully, but the
resulting reason's `name` is `undefined` (`none`) — not the string
`"Unknown"` the claim asserts — because `ERROR_NAMES[code]` has no fallback.
A code inside the enumeration (`T01`) does get its table entry. -/
theorem unknown_reject_code_yields_no_name :
    serializeIlpReject ⟨"X99", "g.usd.x", "oops", []⟩ =
      .ok [14, 17, 88, 57, 57, 7, 103, 46, 117, 115, 100, 46, 120, 4, 111, 111, 112, 115, 0] ∧
    ilpRejectToLpi1Rejection
        [14, 17, 88, 57, 57, 7, 103, 46, 117, 115, 100, 46, 120, 4, 111, 111, 112, 115, 0] =
      .ok { code := "X99", name := none, message := some "oops",
            triggered_by := some "g.usd.x",
            additional_info := some (.objVal ⟨some [], some "oops"⟩) } ∧
    (ilpRejectToLpi1Rejection [14, 10, 84, 48, 49, 3, 103, 46, 97, 1, 109, 0]).map
        RejectionReasonV1.name = .ok (some "Ledger Unreachable") := by
  refine ⟨by decide, by decide, by decide⟩
